import Mathlib

/-!
Verification of the circus controller (`src/circus/controller.py`).

The controller receives framed messages `(client identity, body)` from a
ROUTER socket, queues them, and on every wakeup pops at most one job,
decodes it as a JSON command envelope, executes the command against the
arbiter and sends back a response.  We embed the controller as pure
functions that return the list of externally visible effects (responses
handed to the transport, stream flushes, `arbiter.stop()`,
`arbiter.manage_watchers()`), in order.  The JSON parser
(`zmq.utils.jsonapi`), the command registry (`circus.commands`) and the
arbiter are external collaborators and enter the model as parameters in
an `Env`.  A Python exception escaping a method is modelled by a
`crashed` flag on the method's output, paired with the effects emitted
before the exception was raised.
-/

namespace Circus

/-- Opaque client-connection identity token (zmq ROUTER frame), modelled
as a natural number.  `none` stands for Python `None` (no reply possible). -/
abbrev Cid := Nat

/-- The `properties` mapping of a command envelope.  The controller never
inspects it, it is handed to the command unchanged; a plain association
list stands in for an arbitrary JSON object. -/
abbrev Props := List (String × String)

/-- A JSON-object result returned by a command's `execute`.  The
controller never inspects its contents either. -/
abbrev Dict := List (String × String)

/-- Modelled from the spec: the fixed error-code taxonomy of
`circus.commands.errors` (§6 of the spec); the module itself is not part
of the source excerpt.  Claims compare codes only by identity, so an
enumeration stands in for the small integers. -/
inductive Errno
  | not_specified
  | invalid_json
  | unknown_command
  | message_error
  | os_error
  | command_error
  | bad_msg_data_error
deriving DecidableEq, Repr

/-- Payload merged into a success envelope: either a dict returned by the
command (`ok(resp)` at controller.py:128 via `send_ok`) or a list wrapped
as `{"results": resp}` (controller.py:125-126). -/
inductive OkProps
  | fromDict (d : Dict)
  | results (l : List String)
deriving DecidableEq, Repr

/-- Modelled from the spec: the response envelopes built by
`circus.commands.ok` / `circus.commands.error` (spec §6): `{"status":
"ok", ...props}` and `{"status": "error", "reason": r, "tb": t,
"errno": e}`.  `ok none` is the minimal `{"status": "ok"}` envelope. -/
inductive Resp
  | ok (props : Option OkProps)
  | err (reason : String) (tb : Option String) (errno : Errno)
deriving DecidableEq, Repr

/-- What `send_response` hands to the stream: either a plain-text string
(sent as-is, controller.py:152 keeps strings unserialized) or a
structured response (serialized with `json.dumps`; we keep the structure,
serialization carries no semantic content). -/
inductive Payload
  | text (s : String)
  | json (r : Resp)
deriving DecidableEq, Repr

/-- Externally visible effects of the controller, in program order. -/
inductive Effect
  | send (cid : Cid) (p : Payload)
  | flushStream
  | arbiterStop
  | manageWatchers
deriving DecidableEq, Repr

/-- Python value returned by `cmd.execute(arbiter, properties)` as the
controller classifies it (controller.py:116-126): `None`, a dict, a list
(elements opaque, a `String` stands in), or anything else (`other`,
carrying its `str()`). -/
inductive CmdReturn
  | noneR
  | dict (d : Dict)
  | list (l : List String)
  | other (s : String)
deriving DecidableEq, Repr

/-- Behaviour of one registered command when the controller runs
`cmd.validate(properties); cmd.execute(arbiter, properties)`
(controller.py:189-191): a returned value, or an exception of one of the
three classes the controller distinguishes (controller.py:192-204).
`otherError` carries `str(value)` and the formatted traceback. -/
inductive ExecResult
  | ret (r : CmdReturn)
  | msgError (m : String)
  | osError (m : String)
  | otherError (value : String) (tb : String)
deriving DecidableEq, Repr

/-- A registered command, as the controller sees it: its combined
validate-and-execute behaviour on the given properties. -/
abbrev Cmd := Props → ExecResult

/-- A decoded JSON object envelope (controller.py:110-112):
`json_msg.get('command')`, `json_msg.get('properties', {})`,
`json_msg.get('msg_type')`.  `command = none` covers both an absent
`command` key and a non-string value (both make `cmd_name.lower()` raise
`AttributeError`); likewise a non-string `msg_type` compares unequal to
`"cast"` exactly as an absent one does. -/
structure Doc where
  command : Option String
  properties : Props
  msgType : Option String
deriving DecidableEq, Repr

/-- Outcome of `json.loads(msg)` (controller.py:104-105): parse failure
(`ValueError`), a parseable document that is not an object (on which the
subsequent `.get` raises `AttributeError`), or an object.  The
`declaredCast` flag on `malformed` records whether the unparseable text
textually declared `msg_type: cast`; `json.loads` fails before the code
could ever read it, and `dispatch` indeed ignores it. -/
inductive ParseResult
  | malformed (declaredCast : Bool)
  | nonObject
  | obj (doc : Doc)

/-- External collaborators of the controller: the JSON codec and the
command registry (`self.commands = get_commands()`, keyed by lower-case
name). -/
structure Env where
  parse : String → ParseResult
  commands : List (String × Cmd)

/-- A queued job (controller.py:88): the pair `(cid, msg)`. -/
abbrev Job := Option Cid × String

/-- The whitespace bytes Python's `bytes.strip()` removes. -/
def pyIsSpace (c : Char) : Bool :=
  c == ' ' || c == '\t' || c == '\n' || c == '\r' || c == '\x0b' || c == '\x0c'

/-- Python `msg.strip()` (controller.py:93): drop leading and trailing
whitespace bytes. -/
def pyStrip (s : String) : String :=
  String.mk (((s.data.dropWhile pyIsSpace).reverse.dropWhile pyIsSpace).reverse)

/-- ASCII lowercase of one character. -/
def pyLowerChar (c : Char) : Char :=
  if 65 ≤ c.toNat ∧ c.toNat ≤ 90 then Char.ofNat (c.toNat + 32) else c

/-- Python `str.lower()` (ASCII range; command names are ASCII); command
names are matched case-insensitively via `cmd_name.lower()`. -/
def pyLower (s : String) : String := String.mk (s.data.map pyLowerChar)

/-- Python `repr` of a simple string, as used by the `%r` interpolations
in the error reasons (controller.py:185, 201): the text wrapped in
single quotes. -/
def reprStr (s : String) : String := "\x27" ++ s ++ "\x27"

/-- Embeds `BaseController.send_response` (controller.py:145-163): nothing is
sent for a cast message or when no identity is present; otherwise one
identity-tagged payload is handed to the stream.  (A `ZMQError` from the
underlying send is swallowed and logged, so handing the payload over is
the externally visible effect; the `msg` argument is only used in that
log line and is omitted here.) -/
def send_response (cid : Option Cid) (resp : Payload) (cast : Bool) :
    List Effect :=
  if cast then []
  else
    match cid with
    | none => []
    | some c => [Effect.send c resp]

/-- Embeds `BaseController.send_error` (controller.py:136-139). -/
def send_error (cid : Option Cid) (reason : String) (tb : Option String)
    (cast : Bool) (errno : Errno) : List Effect :=
  send_response cid (Payload.json (Resp.err reason tb errno)) cast

/-- Embeds `BaseController.send_ok` (controller.py:141-143). -/
def send_ok (cid : Option Cid) (props : Option OkProps) (cast : Bool) :
    List Effect :=
  send_response cid (Payload.json (Resp.ok props)) cast

/-- Output of `Controller.execute_command`: effects emitted, the Python
return value (`noneR` both for an explicit `None` return and for the
`return self.send_error(...)` paths, since `send_error` returns `None`),
and whether an exception escaped the method. -/
structure ExecOut where
  effects : List Effect
  result : CmdReturn
  crashed : Bool
deriving DecidableEq, Repr

/-- Embeds `Controller.execute_command` (controller.py:181-204).  With
`cmd_name = None` (or non-string), `cmd_name.lower()` raises
`AttributeError`, which the surrounding `except KeyError` does not catch:
the method crashes having emitted nothing.  A registry miss raises
`KeyError`, answered with an `unknown_command` error; an exception from
`validate`/`execute` is classified as `message_error`, `os_error` or
(bare `except:`) `command_error`. -/
def execute_command (env : Env) (cmdName : Option String) (props : Props)
    (cid : Option Cid) (msg : String) (cast : Bool) : ExecOut :=
  match cmdName with
  | none => ⟨[], CmdReturn.noneR, true⟩
  | some name =>
    match List.lookup (pyLower name) env.commands with
    | none =>
      ⟨send_error cid ("unknown command: " ++ reprStr name) none cast
        Errno.unknown_command, CmdReturn.noneR, false⟩
    | some cmd =>
      match cmd props with
      | ExecResult.ret r => ⟨[], r, false⟩
      | ExecResult.msgError m =>
        ⟨send_error cid m none cast Errno.message_error,
          CmdReturn.noneR, false⟩
      | ExecResult.osError m =>
        ⟨send_error cid m none cast Errno.os_error,
          CmdReturn.noneR, false⟩
      | ExecResult.otherError v tb =>
        ⟨send_error cid ("command " ++ reprStr msg ++ ": " ++ v) (some tb)
          cast Errno.command_error, CmdReturn.noneR, false⟩

/-- How `dispatch` turns the (non-`other`) command result into the props
of the ok envelope: `None` → minimal envelope, dict → merged, list →
wrapped under `results` (controller.py:116-128). -/
def okPropsOf : CmdReturn → Option OkProps
  | CmdReturn.noneR => none
  | CmdReturn.dict d => some (OkProps.fromDict d)
  | CmdReturn.list l => some (OkProps.results l)
  | CmdReturn.other _ => none

/-- The quit tail of `dispatch` (controller.py:130-134): when the command
name lowercases to `"quit"`, flush the stream if an identity is present,
then stop the arbiter.  (The `none` arm is unreachable from `dispatch`:
a missing command name already crashed `execute_command`.) -/
def quitEffects (cid : Option Cid) (cmdName : Option String) : List Effect :=
  match cmdName with
  | none => []
  | some name =>
    if pyLower name = "quit" then
      (if cid.isSome then [Effect.flushStream] else []) ++ [Effect.arbiterStop]
    else []

/-- Output of `dispatch`: effects in order, and whether an exception
escaped. -/
structure DispatchOut where
  effects : List Effect
  crashed : Bool
deriving DecidableEq, Repr

/-- Embeds `BaseController.dispatch` (controller.py:101-134), with
`execute_command` as implemented by `Controller`.  A `ValueError` from
`json.loads` is answered with an `invalid_json` error — note line 107
passes no `cast` argument, so this reply is sent even for a message whose
text declared `msg_type: cast`.  A parseable non-object makes
`json_msg.get` raise `AttributeError` (uncaught).  A `None` result is
replaced by `ok()`; a non-dict non-list result is answered with a
`bad_msg_data_error` and dispatch returns before the quit check. -/
def dispatch (env : Env) (job : Job) : DispatchOut :=
  match job with
  | (cid, msg) =>
    match env.parse msg with
    | ParseResult.malformed _ =>
      ⟨send_error cid "json invalid" none false Errno.invalid_json, false⟩
    | ParseResult.nonObject => ⟨[], true⟩
    | ParseResult.obj doc =>
      let cast := decide (doc.msgType = some "cast")
      let ex := execute_command env doc.command doc.properties cid msg cast
      if ex.crashed then ⟨ex.effects, true⟩
      else
        match ex.result with
        | CmdReturn.other _ =>
          ⟨ex.effects ++
            send_error cid "server error" none cast Errno.bad_msg_data_error,
            false⟩
        | r =>
          ⟨ex.effects ++ send_ok cid (okPropsOf r) cast ++
            quitEffects cid doc.command, false⟩

/-- Output of a wakeup: the remaining queue, the effects, and whether an
exception escaped. -/
structure WakeupOut where
  jobs : List Job
  effects : List Effect
  crashed : Bool
deriving DecidableEq, Repr

/-- Embeds `BaseController.wakeup` (controller.py:77-85): pop at most one job
(non-blocking `Queue.get`; the queue is FIFO, its front is the list
head) and dispatch it.  An exception from `dispatch` propagates. -/
def BaseController.wakeup (env : Env) (jobs : List Job) : WakeupOut :=
  match jobs with
  | [] => ⟨[], [], false⟩
  | j :: rest => ⟨rest, (dispatch env j).effects, (dispatch env j).crashed⟩

/-- Embeds `Controller.wakeup` (controller.py:177-179): the base wakeup, then
`self.arbiter.manage_watchers()` — which is not reached if the base
wakeup raised. -/
def Controller.wakeup (env : Env) (jobs : List Job) : WakeupOut :=
  let w := BaseController.wakeup env jobs
  if w.crashed then w
  else ⟨w.jobs, w.effects ++ [Effect.manageWatchers], false⟩

/-- Embeds `BaseController.add_job` (controller.py:87-89): enqueue the job at
the back, then wake up (virtual dispatch reaches `Controller.wakeup`). -/
def add_job (env : Env) (jobs : List Job) (cid : Option Cid)
    (msg : String) : WakeupOut :=
  Controller.wakeup env (jobs ++ [(cid, msg)])

/-- Embeds `BaseController.handle_message` (controller.py:91-99): strip the
body; an empty result is answered directly with the plain-text reply
`"error: empty command"` (default `cast=False` of `send_response`) and
nothing is enqueued; otherwise the stripped body is enqueued via
`add_job`. -/
def handle_message (env : Env) (jobs : List Job) (cid : Option Cid)
    (raw : String) : WakeupOut :=
  let msg := pyStrip raw
  if msg = "" then
    ⟨jobs, send_response cid (Payload.text "error: empty command") false, false⟩
  else add_job env jobs cid msg

/-- The responses among a list of effects: what was handed to the
transport for transmission, in order. -/
def sentPayloads (effs : List Effect) : List Payload :=
  effs.filterMap fun e =>
    match e with
    | Effect.send _ p => some p
    | _ => none

/-- Behaviour of the stream teardown in `BaseController.stop`
(controller.py:70-71): `self.stream.flush(); self.stream.close()` can
each raise `IOError`/`ZMQError`. -/
inductive TeardownBehavior
  | ok
  | flushRaises
  | closeRaises
deriving DecidableEq, Repr

/-- Externally visible steps of `BaseController.stop`. -/
inductive LifecycleEffect
  | timerStop
  | streamFlush
  | streamClose
  | socketClose
  | sysHandlerStop
deriving DecidableEq, Repr

/-- The stream-teardown steps that complete under the given behaviour;
the exception is swallowed by `except (IOError, zmq.ZMQError): pass`. -/
def streamTeardown : TeardownBehavior → List LifecycleEffect
  | TeardownBehavior.ok => [LifecycleEffect.streamFlush, LifecycleEffect.streamClose]
  | TeardownBehavior.flushRaises => []
  | TeardownBehavior.closeRaises => [LifecycleEffect.streamFlush]

/-- Embeds `BaseController.stop` (controller.py:66-75): when started, stop the
periodic caller, flush and close the stream swallowing I/O errors, close
the control socket; in every case — started or not — stop the sys
handler (`self.sys_hdl.stop()` sits outside the `if self.started`). -/
def BaseController.stop (started : Bool) (tb : TeardownBehavior) :
    List LifecycleEffect :=
  (if started then
    [LifecycleEffect.timerStop] ++ streamTeardown tb ++
      [LifecycleEffect.socketClose]
  else []) ++ [LifecycleEffect.sysHandlerStop]

/-! Concrete environments used by the counterexamples and witnesses. -/

/-- A registry with no commands; every body parses to
`{"command": "foo"}`. -/
def envUnknown : Env :=
  ⟨fun _ => ParseResult.obj ⟨some "foo", [], none⟩, []⟩

/-- Every body parses to `{}`: an object without a `command` key. -/
def envNoCmd : Env :=
  ⟨fun _ => ParseResult.obj ⟨none, [], none⟩, []⟩

/-- Every body fails to parse, and the raw text textually declared
`msg_type: cast` (e.g. `{"msg_type": "cast", "command": "foo"` with the
closing brace missing). -/
def envMalformedCast : Env :=
  ⟨fun _ => ParseResult.malformed true, []⟩

/-- A registry whose `quit` command fails its validation with a
`MessageError`; every body parses to `{"command": "quit"}`. -/
def envQuitFail : Env :=
  ⟨fun _ => ParseResult.obj ⟨some "quit", [], none⟩,
    [("quit", fun _ => ExecResult.msgError "boom")]⟩

/-- A registry whose `quit` command succeeds returning `None`. -/
def envQuitOk : Env :=
  ⟨fun _ => ParseResult.obj ⟨some "quit", [], none⟩,
    [("quit", fun _ => ExecResult.ret CmdReturn.noneR)]⟩

/-- Every body parses to `{"command": "foo", "msg_type": "cast"}`;
empty registry. -/
def envCastUnknown : Env :=
  ⟨fun _ => ParseResult.obj ⟨some "foo", [], some "cast"⟩, []⟩

/-- Discriminates the caught error paths of `execute_command` for a
present command name: a registry miss (controller.py:184-187) or an
exception raised by `validate`/`execute` (controller.py:192-204), as
opposed to a normal return. -/
def isErrPath (env : Env) (name : String) (props : Props) : Bool :=
  match List.lookup (pyLower name) env.commands with
  | none => true
  | some cmd =>
    match cmd props with
    | ExecResult.ret _ => false
    | _ => true

/-- Abbreviates the `execute_command` call `dispatch` makes for a decoded
object envelope (controller.py:114). -/
def execOf (env : Env) (cid : Option Cid) (m : String) (doc : Doc) : ExecOut :=
  execute_command env doc.command doc.properties cid m
    (decide (doc.msgType = some "cast"))

/-! Helper lemmas. -/

theorem sentPayloads_append (a b : List Effect) :
    sentPayloads (a ++ b) = sentPayloads a ++ sentPayloads b :=
  List.filterMap_append a b _

theorem sentPayloads_quitEffects (cid : Option Cid) (cn : Option String) :
    sentPayloads (quitEffects cid cn) = [] := by
  cases cn with
  | none => rfl
  | some name =>
    simp only [quitEffects]
    split
    · cases cid <;> rfl
    · rfl

theorem mem_send_response {e : Effect} {cid : Option Cid} {p : Payload}
    {cast : Bool} (h : e ∈ send_response cid p cast) :
    ∃ c, e = Effect.send c p := by
  unfold send_response at h
  split at h
  · cases h
  · cases cid with
    | none => cases h
    | some c =>
      simp only [List.mem_singleton] at h
      exact ⟨c, h⟩

theorem execute_command_effects_are_sends {e : Effect} {env : Env}
    {cmdName : Option String} {props : Props} {cid : Option Cid}
    {msg : String} {cast : Bool}
    (h : e ∈ (execute_command env cmdName props cid msg cast).effects) :
    ∃ c p, e = Effect.send c p := by
  cases cmdName with
  | none =>
    simp only [execute_command, List.not_mem_nil] at h
  | some name =>
    cases hl : List.lookup (pyLower name) env.commands with
    | none =>
      simp only [execute_command, hl, send_error] at h
      obtain ⟨c, hc⟩ := mem_send_response h
      exact ⟨c, _, hc⟩
    | some cmd =>
      cases hr : cmd props with
      | ret r =>
        simp only [execute_command, hl, hr, List.not_mem_nil] at h
      | msgError m =>
        simp only [execute_command, hl, hr, send_error] at h
        obtain ⟨c, hc⟩ := mem_send_response h
        exact ⟨c, _, hc⟩
      | osError m =>
        simp only [execute_command, hl, hr, send_error] at h
        obtain ⟨c, hc⟩ := mem_send_response h
        exact ⟨c, _, hc⟩
      | otherError v tb =>
        simp only [execute_command, hl, hr, send_error] at h
        obtain ⟨c, hc⟩ := mem_send_response h
        exact ⟨c, _, hc⟩

theorem execute_command_some_not_crashed (env : Env) (name : String)
    (props : Props) (cid : Option Cid) (msg : String) (cast : Bool) :
    (execute_command env (some name) props cid msg cast).crashed = false := by
  cases hl : List.lookup (pyLower name) env.commands with
  | none => simp [execute_command, hl]
  | some cmd =>
    cases hr : cmd props <;> simp [execute_command, hl, hr]

theorem arbiterStop_mem_quitEffects {cid : Option Cid} {cn : Option String}
    (h : Effect.arbiterStop ∈ quitEffects cid cn) :
    ∃ name, cn = some name ∧ pyLower name = "quit" := by
  cases cn with
  | none => exact absurd h (by simp [quitEffects])
  | some name =>
    refine ⟨name, rfl, ?_⟩
    by_contra hne
    simp only [quitEffects] at h
    rw [if_neg hne] at h
    cases h

/-! Theorems settling the claims. -/


theorem dispatch_malformed (env : Env) (cid : Option Cid) (m : String)
    (d : Bool) (hp : env.parse m = ParseResult.malformed d) :
    dispatch env (cid, m) =
      ⟨send_error cid "json invalid" none false Errno.invalid_json, false⟩ := by
  simp only [dispatch, hp]

theorem dispatch_obj_crashed (env : Env) (cid : Option Cid) (m : String)
    (doc : Doc) (hp : env.parse m = ParseResult.obj doc)
    (hcr : (execOf env cid m doc).crashed = true) :
    dispatch env (cid, m) = ⟨(execOf env cid m doc).effects, true⟩ := by
  simp only [execOf] at hcr
  simp only [dispatch, hp, execOf, hcr, if_true]

theorem dispatch_obj_other (env : Env) (cid : Option Cid) (m : String)
    (doc : Doc) (s : String) (hp : env.parse m = ParseResult.obj doc)
    (hcr : (execOf env cid m doc).crashed = false)
    (hres : (execOf env cid m doc).result = CmdReturn.other s) :
    dispatch env (cid, m) =
      ⟨(execOf env cid m doc).effects ++
        send_error cid "server error" none (decide (doc.msgType = some "cast"))
          Errno.bad_msg_data_error, false⟩ := by
  simp only [execOf] at hcr hres ⊢
  simp only [dispatch, hp, hcr, hres]
  rfl

theorem dispatch_obj_normal (env : Env) (cid : Option Cid) (m : String)
    (doc : Doc) (r : CmdReturn) (hp : env.parse m = ParseResult.obj doc)
    (hcr : (execOf env cid m doc).crashed = false)
    (hres : (execOf env cid m doc).result = r)
    (hno : ∀ s, r ≠ CmdReturn.other s) :
    dispatch env (cid, m) =
      ⟨(execOf env cid m doc).effects ++
        send_ok cid (okPropsOf r) (decide (doc.msgType = some "cast")) ++
        quitEffects cid doc.command, false⟩ := by
  simp only [execOf] at hcr hres ⊢
  cases r with
  | other s => exact absurd rfl (hno s)
  | noneR => simp only [dispatch, hp, hcr, hres]; rfl
  | dict d => simp only [dispatch, hp, hcr, hres]; rfl
  | list l => simp only [dispatch, hp, hcr, hres]; rfl



theorem execOf_crashed_effects (env : Env) (cid : Option Cid) (m : String)
    (doc : Doc) (hcr : (execOf env cid m doc).crashed = true) :
    (execOf env cid m doc).effects = [] := by
  cases hc : doc.command with
  | none => simp [execOf, hc, execute_command]
  | some name =>
    have h := execute_command_some_not_crashed env name doc.properties cid m
      (decide (doc.msgType = some "cast"))
    simp only [execOf, hc] at hcr
    rw [h] at hcr
    cases hcr

theorem execute_command_cast_effects (env : Env) (cmdName : Option String)
    (props : Props) (cid : Option Cid) (msg : String) :
    (execute_command env cmdName props cid msg true).effects = [] := by
  cases cmdName with
  | none => rfl
  | some name =>
    cases hl : List.lookup (pyLower name) env.commands with
    | none => simp [execute_command, hl, send_error, send_response]
    | some cmd =>
      cases hr : cmd props <;>
        simp [execute_command, hl, hr, send_error, send_response]

/-- C2: dispatch does NOT survive a message whose parsed object lacks a
command name: `cmd_name.lower()` raises an uncaught `AttributeError` and
no error response is produced.  (The claim says every such failure is
caught; this theorem exhibits the code path on which it is not.) -/
theorem missing_command_crashes_dispatch (env : Env) (cid : Option Cid)
    (m : String) (doc : Doc) (hp : env.parse m = ParseResult.obj doc)
    (hc : doc.command = none) :
    dispatch env (cid, m) = ⟨[], true⟩ := by
  simp only [dispatch, hp, hc, execute_command]
  rfl

/-- Concrete instance for C2: the body parsing to an empty object, with an identity present, crashes dispatch. -/
theorem missing_command_crashes_dispatch_instance :
    dispatch envNoCmd (some 0, "\x7b\x7d") = ⟨[], true⟩ :=
  missing_command_crashes_dispatch envNoCmd (some 0) "\x7b\x7d" ⟨none, [], none⟩
    rfl rfl

/-- C5: a call-mode message parsing to an object without a command field
gets NO response at all (in particular no `unknown_command` error): the
dispatch crashes instead. -/
theorem missing_command_no_response (env : Env) (c : Cid) (m : String)
    (doc : Doc) (hp : env.parse m = ParseResult.obj doc)
    (hc : doc.command = none) :
    sentPayloads (dispatch env (some c, m)).effects = [] ∧
    (dispatch env (some c, m)).crashed = true := by
  simp only [dispatch, hp, hc, execute_command]
  exact ⟨rfl, rfl⟩

/-- Concrete instance for C5: no response at all is transmitted for the empty-object body. -/
theorem missing_command_no_response_instance :
    sentPayloads (dispatch envNoCmd (some 0, "\x7b\x7d")).effects = [] ∧
    (dispatch envNoCmd (some 0, "\x7b\x7d")).crashed = true :=
  missing_command_no_response envNoCmd 0 "\x7b\x7d" ⟨none, [], none⟩ rfl rfl

/-- C6 (amended): a wakeup pops at most the front job; with an empty
queue it performs exactly the maintenance hook; with a job it dispatches
it and then invokes the hook provided dispatch did not raise; when
dispatch raises, the hook is skipped. -/
theorem wakeup_behavior (env : Env) (jobs : List Job) :
    (jobs = [] → Controller.wakeup env jobs = ⟨[], [Effect.manageWatchers], false⟩)
    ∧ (∀ j rest, jobs = j :: rest →
        (Controller.wakeup env jobs).jobs = rest
        ∧ ((dispatch env j).crashed = false →
            Controller.wakeup env jobs =
              ⟨rest, (dispatch env j).effects ++ [Effect.manageWatchers], false⟩)
        ∧ ((dispatch env j).crashed = true →
            Controller.wakeup env jobs = ⟨rest, (dispatch env j).effects, true⟩)) := by
  constructor
  · intro h; subst h; rfl
  · intro j rest h; subst h
    refine ⟨?_, ?_, ?_⟩
    · simp only [Controller.wakeup, BaseController.wakeup]
      split <;> rfl
    · intro hcr
      simp [Controller.wakeup, BaseController.wakeup, hcr]
    · intro hcr
      simp [Controller.wakeup, BaseController.wakeup, hcr]

/-- Counterexample for C6: a wakeup whose job crashes dispatch never reaches the maintenance hook. -/
theorem wakeup_skips_hook_on_crash :
    Controller.wakeup envNoCmd [(some 0, "\x7b\x7d")] = ⟨[], [], true⟩ ∧
    Effect.manageWatchers ∉ (Controller.wakeup envNoCmd [(some 0, "\x7b\x7d")]).effects := by
  constructor <;> decide

/-- Concrete instance for C6: an empty-queue wakeup performs exactly the maintenance hook. -/
theorem wakeup_behavior_instance :
    Controller.wakeup envUnknown [] = ⟨[], [Effect.manageWatchers], false⟩ :=
  (wakeup_behavior envUnknown []).1 rfl

/-- C7: an empty message body is answered immediately with the plain-text
reply and never enqueued. -/
theorem empty_message_immediate_reply (env : Env) (jobs : List Job)
    (cid : Option Cid) :
    (handle_message env jobs cid "").jobs = jobs
    ∧ (handle_message env jobs cid "").crashed = false
    ∧ (∀ c, cid = some c →
        handle_message env jobs cid "" =
          ⟨jobs, [Effect.send c (Payload.text "error: empty command")], false⟩) := by
  refine ⟨rfl, rfl, ?_⟩
  intro c hc
  subst hc
  rfl

/-- Concrete instance for C7. -/
theorem empty_message_immediate_reply_instance :
    handle_message envUnknown [] (some 0) "" =
      ⟨[], [Effect.send 0 (Payload.text "error: empty command")], false⟩ :=
  (empty_message_immediate_reply envUnknown [] (some 0)).2.2 0 rfl

/-- C10: bodies are stripped before any processing; a whitespace-only
body takes exactly the empty-body path, and a non-empty body is enqueued
in stripped form, so dispatch operates on the stripped bytes. -/
theorem strip_before_processing (env : Env) (jobs : List Job)
    (cid : Option Cid) (raw : String) :
    (pyStrip raw = "" → handle_message env jobs cid raw =
      ⟨jobs, send_response cid (Payload.text "error: empty command") false, false⟩)
    ∧ (pyStrip raw ≠ "" → handle_message env jobs cid raw =
      Controller.wakeup env (jobs ++ [(cid, pyStrip raw)])) := by
  constructor
  · intro h
    simp only [handle_message]
    rw [if_pos h]
  · intro h
    simp only [handle_message, add_job]
    rw [if_neg h]

/-- Concrete instance for C10: a whitespace-only body takes the empty-body path. -/
theorem strip_before_processing_instance :
    handle_message envUnknown [] (some 0) " \x0b\t " =
      ⟨[], [Effect.send 0 (Payload.text "error: empty command")], false⟩ := by
  have h := (strip_before_processing envUnknown [] (some 0) " \x0b\t ").1 (by decide)
  exact h.trans (by decide)

/-- C8 (amended): `stop()` always stops the sys handler, even when the
controller was never started (so it is not a no-op then); when started it
stops the timer, tears the stream down swallowing I/O errors, closes the
socket and still reaches the sys handler. -/
theorem stop_behavior (started : Bool) (tb : TeardownBehavior) :
    LifecycleEffect.sysHandlerStop ∈ BaseController.stop started tb
    ∧ (started = false →
        BaseController.stop started tb = [LifecycleEffect.sysHandlerStop])
    ∧ (started = true →
        BaseController.stop started tb =
          [LifecycleEffect.timerStop] ++ streamTeardown tb ++
            [LifecycleEffect.socketClose, LifecycleEffect.sysHandlerStop]) := by
  refine ⟨?_, ?_, ?_⟩
  · cases started <;> cases tb <;> decide
  · intro h; subst h; rfl
  · intro h; subst h; cases tb <;> rfl

/-- Counterexample for C8: a never-started controller still stops the sys handler, so stop() is not a no-op. -/
theorem stop_not_noop_unstarted :
    BaseController.stop false TeardownBehavior.ok = [LifecycleEffect.sysHandlerStop]
    ∧ BaseController.stop false TeardownBehavior.ok ≠ [] := by
  constructor <;> decide

/-- Concrete instance for C8. -/
theorem stop_behavior_instance :
    BaseController.stop false TeardownBehavior.flushRaises =
      [LifecycleEffect.sysHandlerStop] :=
  (stop_behavior false TeardownBehavior.flushRaises).2.1 rfl



theorem sends_of_err_exec (env : Env) (c : Cid) (m : String) (doc : Doc)
    (reason : String) (tb : Option String) (errno : Errno)
    (hp : env.parse m = ParseResult.obj doc)
    (hcast : decide (doc.msgType = some "cast") = false)
    (hex : execOf env (some c) m doc =
      ⟨[Effect.send c (Payload.json (Resp.err reason tb errno))],
        CmdReturn.noneR, false⟩) :
    sentPayloads (dispatch env (some c, m)).effects =
      [Payload.json (Resp.err reason tb errno), Payload.json (Resp.ok none)] := by
  have hd := dispatch_obj_normal env (some c) m doc CmdReturn.noneR hp
    (by rw [hex]) (by rw [hex]) (fun s h => CmdReturn.noConfusion h)
  rw [hd, hex, hcast]
  rw [sentPayloads_append, sentPayloads_append, sentPayloads_quitEffects]
  simp [send_ok, send_response, sentPayloads, okPropsOf]

/-- C1 (amended): a call-mode message with an unknown command name is
answered with the `unknown_command` error envelope whose reason contains
the offending name — but that envelope is not the only response: a
spurious minimal ok envelope follows it. -/
theorem unknown_command_error_then_ok (env : Env) (c : Cid) (m : String)
    (doc : Doc) (name : String)
    (hp : env.parse m = ParseResult.obj doc)
    (hc : doc.command = some name)
    (hm : doc.msgType ≠ some "cast")
    (hl : List.lookup (pyLower name) env.commands = none) :
    sentPayloads (dispatch env (some c, m)).effects =
      [Payload.json (Resp.err ("unknown command: " ++ reprStr name) none
          Errno.unknown_command),
        Payload.json (Resp.ok none)]
    ∧ ∃ pre post,
        "unknown command: " ++ reprStr name = (pre ++ name) ++ post := by
  have hcast : decide (doc.msgType = some "cast") = false := decide_eq_false hm
  constructor
  · refine sends_of_err_exec env c m doc _ none Errno.unknown_command hp hcast ?_
    simp only [execOf, hc, hcast, execute_command, hl, send_error, send_response]
    rfl
  · exact ⟨"unknown command: " ++ "\x27", "\x27",
      by simp only [reprStr]; rw [← String.append_assoc, ← String.append_assoc]⟩

/-- Counterexample for C1: the unknown-command error envelope is followed by a second transmitted response, so it is not the only one. -/
theorem unknown_command_not_sole_response :
    sentPayloads (dispatch envUnknown (some 0, "m")).effects =
      [Payload.json (Resp.err ("unknown command: " ++ reprStr "foo") none
          Errno.unknown_command),
        Payload.json (Resp.ok none)]
    ∧ (sentPayloads (dispatch envUnknown (some 0, "m")).effects).length ≠ 1 := by
  constructor <;> decide

/-- Concrete instance for C1. -/
theorem unknown_command_error_then_ok_instance :
    sentPayloads (dispatch envUnknown (some 1, "m")).effects =
      [Payload.json (Resp.err ("unknown command: " ++ reprStr "foo") none
          Errno.unknown_command),
        Payload.json (Resp.ok none)]
    ∧ ∃ pre post,
        "unknown command: " ++ reprStr "foo" = (pre ++ "foo") ++ post :=
  unknown_command_error_then_ok envUnknown 1 "m" ⟨some "foo", [], none⟩ "foo"
    rfl rfl (by decide) rfl

/-- C9: on every caught error path of `execute_command` for a call-mode
job, two responses are transmitted for the single request: the error
envelope, then the minimal ok envelope — because the error helpers return
`None` and `dispatch` treats `None` as a successful empty result. -/
theorem error_path_double_response (env : Env) (c : Cid) (m : String)
    (doc : Doc) (name : String)
    (hp : env.parse m = ParseResult.obj doc)
    (hc : doc.command = some name)
    (hm : doc.msgType ≠ some "cast")
    (he : isErrPath env name doc.properties = true) :
    ∃ reason tb errno,
      sentPayloads (dispatch env (some c, m)).effects =
        [Payload.json (Resp.err reason tb errno), Payload.json (Resp.ok none)] := by
  have hcast : decide (doc.msgType = some "cast") = false := decide_eq_false hm
  cases hl : List.lookup (pyLower name) env.commands with
  | none =>
    refine ⟨"unknown command: " ++ reprStr name, none, Errno.unknown_command,
      sends_of_err_exec env c m doc _ _ _ hp hcast ?_⟩
    simp only [execOf, hc, hcast, execute_command, hl, send_error, send_response]
    rfl
  | some cmd =>
    cases hr : cmd doc.properties with
    | ret r =>
      simp [isErrPath, hl, hr] at he
    | msgError mm =>
      refine ⟨mm, none, Errno.message_error,
        sends_of_err_exec env c m doc _ _ _ hp hcast ?_⟩
      simp only [execOf, hc, hcast, execute_command, hl, hr, send_error,
        send_response]
      rfl
    | osError mm =>
      refine ⟨mm, none, Errno.os_error,
        sends_of_err_exec env c m doc _ _ _ hp hcast ?_⟩
      simp only [execOf, hc, hcast, execute_command, hl, hr, send_error,
        send_response]
      rfl
    | otherError v tb2 =>
      refine ⟨"command " ++ reprStr m ++ ": " ++ v, some tb2, Errno.command_error,
        sends_of_err_exec env c m doc _ _ _ hp hcast ?_⟩
      simp only [execOf, hc, hcast, execute_command, hl, hr, send_error,
        send_response]
      rfl

/-- Concrete instance for C9. -/
theorem error_path_double_response_instance :
    ∃ reason tb errno,
      sentPayloads (dispatch envUnknown (some 2, "m")).effects =
        [Payload.json (Resp.err reason tb errno), Payload.json (Resp.ok none)] :=
  error_path_double_response envUnknown 2 "m" ⟨some "foo", [], none⟩ "foo"
    rfl rfl (by decide) rfl



/-- C4 (amended): for a message that parses to an object declaring
`msg_type = "cast"`, no response is ever transmitted on any path; a
non-parseable body, by contrast, is always answered with the
`invalid_json` error when an identity is present, because the cast flag
cannot be read from an unparseable body. -/
theorem cast_suppresses_responses (env : Env) (cid : Option Cid) (m : String) :
    (∀ doc, env.parse m = ParseResult.obj doc → doc.msgType = some "cast" →
      sentPayloads (dispatch env (cid, m)).effects = [])
    ∧ (∀ d c, env.parse m = ParseResult.malformed d → cid = some c →
      (dispatch env (cid, m)).effects =
        [Effect.send c (Payload.json (Resp.err "json invalid" none
          Errno.invalid_json))]) := by
  constructor
  · intro doc hp hm
    have hcast : decide (doc.msgType = some "cast") = true := by rw [hm]; rfl
    cases hcr : (execOf env cid m doc).crashed with
    | true =>
      rw [dispatch_obj_crashed env cid m doc hp hcr,
        execOf_crashed_effects env cid m doc hcr]
      rfl
    | false =>
      have hce : (execOf env cid m doc).effects = [] := by
        simp only [execOf, hcast]
        exact execute_command_cast_effects env doc.command doc.properties cid m
      cases hres : (execOf env cid m doc).result with
      | other s =>
        rw [dispatch_obj_other env cid m doc s hp hcr hres]
        rw [sentPayloads_append, hce, hcast]
        rfl
      | noneR =>
        rw [dispatch_obj_normal env cid m doc CmdReturn.noneR hp hcr hres
          (fun s h => CmdReturn.noConfusion h)]
        rw [sentPayloads_append, sentPayloads_append, hce, hcast,
          sentPayloads_quitEffects]
        rfl
      | dict d =>
        rw [dispatch_obj_normal env cid m doc (CmdReturn.dict d) hp hcr hres
          (fun s h => CmdReturn.noConfusion h)]
        rw [sentPayloads_append, sentPayloads_append, hce, hcast,
          sentPayloads_quitEffects]
        rfl
      | list l =>
        rw [dispatch_obj_normal env cid m doc (CmdReturn.list l) hp hcr hres
          (fun s h => CmdReturn.noConfusion h)]
        rw [sentPayloads_append, sentPayloads_append, hce, hcast,
          sentPayloads_quitEffects]
        rfl
  · intro d c hpm hcid
    subst hcid
    rw [dispatch_malformed env (some c) m d hpm]
    rfl

/-- Counterexample for C4: a non-parseable body whose text declared cast still receives a response. -/
theorem malformed_cast_gets_response :
    dispatch envMalformedCast (some 0, "m") =
      ⟨[Effect.send 0 (Payload.json (Resp.err "json invalid" none
        Errno.invalid_json))], false⟩
    ∧ sentPayloads (dispatch envMalformedCast (some 0, "m")).effects ≠ [] := by
  constructor <;> decide

/-- Concrete instance for C4: a cast message with an unknown command gets no response. -/
theorem cast_suppresses_responses_instance :
    sentPayloads (dispatch envCastUnknown (some 0, "m")).effects = [] :=
  (cast_suppresses_responses envCastUnknown (some 0) "m").1
    ⟨some "foo", [], some "cast"⟩ rfl rfl



/-- C3 (amended): `arbiter.stop()` is invoked exactly for dispatched jobs
whose body parses to an object whose command name lowercases to `"quit"`
and whose execution result is not a non-dict/non-list value — including
dispatches whose execution failed with a caught error, which still
triggers stop; when invoked, it comes after the ok envelope was handed to
the transport (when not cast) and after the stream flush (when an
identity is present). -/
theorem quit_stop_characterization (env : Env) (cid : Option Cid) (m : String) :
    (Effect.arbiterStop ∈ (dispatch env (cid, m)).effects ↔
      ∃ doc name, env.parse m = ParseResult.obj doc ∧ doc.command = some name ∧
        pyLower name = "quit" ∧
        ∀ s, (execOf env cid m doc).result ≠ CmdReturn.other s)
    ∧ (∀ doc name, env.parse m = ParseResult.obj doc → doc.command = some name →
        pyLower name = "quit" →
        (∀ s, (execOf env cid m doc).result ≠ CmdReturn.other s) →
        (dispatch env (cid, m)).effects =
          (execOf env cid m doc).effects ++
            send_ok cid (okPropsOf (execOf env cid m doc).result)
              (decide (doc.msgType = some "cast")) ++
            ((if cid.isSome then [Effect.flushStream] else []) ++
              [Effect.arbiterStop])) := by
  have hmain : ∀ doc name, env.parse m = ParseResult.obj doc →
      doc.command = some name → pyLower name = "quit" →
      (∀ s, (execOf env cid m doc).result ≠ CmdReturn.other s) →
      (dispatch env (cid, m)).effects =
        (execOf env cid m doc).effects ++
          send_ok cid (okPropsOf (execOf env cid m doc).result)
            (decide (doc.msgType = some "cast")) ++
          ((if cid.isSome then [Effect.flushStream] else []) ++
            [Effect.arbiterStop]) := by
    intro doc name hp hc hq hno
    have hcr : (execOf env cid m doc).crashed = false := by
      simp only [execOf, hc]
      exact execute_command_some_not_crashed env name doc.properties cid m _
    have hquit : quitEffects cid doc.command =
        (if cid.isSome then [Effect.flushStream] else []) ++
          [Effect.arbiterStop] := by
      rw [hc]
      simp only [quitEffects]
      rw [if_pos hq]
    cases hres : (execOf env cid m doc).result with
    | other s => exact absurd hres (hno s)
    | noneR =>
      rw [dispatch_obj_normal env cid m doc CmdReturn.noneR hp hcr hres
        (fun s h => CmdReturn.noConfusion h)]
      simp only [hquit]
    | dict d =>
      rw [dispatch_obj_normal env cid m doc (CmdReturn.dict d) hp hcr hres
        (fun s h => CmdReturn.noConfusion h)]
      simp only [hquit]
    | list l =>
      rw [dispatch_obj_normal env cid m doc (CmdReturn.list l) hp hcr hres
        (fun s h => CmdReturn.noConfusion h)]
      simp only [hquit]
  refine ⟨⟨?_, ?_⟩, hmain⟩
  · intro hmem
    cases hpm : env.parse m with
    | malformed d =>
      rw [dispatch_malformed env cid m d hpm] at hmem
      simp only [send_error] at hmem
      obtain ⟨c2, hc2⟩ := mem_send_response hmem
      exact Effect.noConfusion hc2
    | nonObject =>
      simp only [dispatch, hpm] at hmem
      cases hmem
    | obj doc =>
      cases hcr : (execOf env cid m doc).crashed with
      | true =>
        rw [dispatch_obj_crashed env cid m doc hpm hcr,
          execOf_crashed_effects env cid m doc hcr] at hmem
        cases hmem
      | false =>
        cases hres : (execOf env cid m doc).result with
        | other s =>
          rw [dispatch_obj_other env cid m doc s hpm hcr hres] at hmem
          rcases List.mem_append.mp hmem with h1 | h2
          · obtain ⟨c2, p2, hc2⟩ := execute_command_effects_are_sends
              (by simpa only [execOf] using h1)
            exact Effect.noConfusion hc2
          · simp only [send_error] at h2
            obtain ⟨c2, hc2⟩ := mem_send_response h2
            exact Effect.noConfusion hc2
        | noneR =>
          have hno : ∀ s, (execOf env cid m doc).result ≠ CmdReturn.other s := by
            intro s
            rw [hres]
            exact fun h => CmdReturn.noConfusion h
          rw [dispatch_obj_normal env cid m doc CmdReturn.noneR hpm hcr hres
            (fun s h => CmdReturn.noConfusion h)] at hmem
          rcases List.mem_append.mp hmem with h12 | h3
          · rcases List.mem_append.mp h12 with h1 | h2
            · obtain ⟨c2, p2, hc2⟩ := execute_command_effects_are_sends
                (by simpa only [execOf] using h1)
              exact Effect.noConfusion hc2
            · simp only [send_ok] at h2
              obtain ⟨c2, hc2⟩ := mem_send_response h2
              exact Effect.noConfusion hc2
          · obtain ⟨name, hcn, hq⟩ := arbiterStop_mem_quitEffects h3
            exact ⟨doc, name, rfl, hcn, hq, hno⟩
        | dict d =>
          have hno : ∀ s, (execOf env cid m doc).result ≠ CmdReturn.other s := by
            intro s
            rw [hres]
            exact fun h => CmdReturn.noConfusion h
          rw [dispatch_obj_normal env cid m doc (CmdReturn.dict d) hpm hcr hres
            (fun s h => CmdReturn.noConfusion h)] at hmem
          rcases List.mem_append.mp hmem with h12 | h3
          · rcases List.mem_append.mp h12 with h1 | h2
            · obtain ⟨c2, p2, hc2⟩ := execute_command_effects_are_sends
                (by simpa only [execOf] using h1)
              exact Effect.noConfusion hc2
            · simp only [send_ok] at h2
              obtain ⟨c2, hc2⟩ := mem_send_response h2
              exact Effect.noConfusion hc2
          · obtain ⟨name, hcn, hq⟩ := arbiterStop_mem_quitEffects h3
            exact ⟨doc, name, rfl, hcn, hq, hno⟩
        | list l =>
          have hno : ∀ s, (execOf env cid m doc).result ≠ CmdReturn.other s := by
            intro s
            rw [hres]
            exact fun h => CmdReturn.noConfusion h
          rw [dispatch_obj_normal env cid m doc (CmdReturn.list l) hpm hcr hres
            (fun s h => CmdReturn.noConfusion h)] at hmem
          rcases List.mem_append.mp hmem with h12 | h3
          · rcases List.mem_append.mp h12 with h1 | h2
            · obtain ⟨c2, p2, hc2⟩ := execute_command_effects_are_sends
                (by simpa only [execOf] using h1)
              exact Effect.noConfusion hc2
            · simp only [send_ok] at h2
              obtain ⟨c2, hc2⟩ := mem_send_response h2
              exact Effect.noConfusion hc2
          · obtain ⟨name, hcn, hq⟩ := arbiterStop_mem_quitEffects h3
            exact ⟨doc, name, rfl, hcn, hq, hno⟩
  · rintro ⟨doc, name, hp, hc, hq, hno⟩
    rw [hmain doc name hp hc hq hno]
    simp

/-- Counterexample for C3: a quit command failing its validation still triggers the arbiter stop, right after an error and an ok envelope were both transmitted. -/
theorem quit_stop_after_failed_dispatch :
    dispatch envQuitFail (some 0, "m") =
      ⟨[Effect.send 0 (Payload.json (Resp.err "boom" none Errno.message_error)),
        Effect.send 0 (Payload.json (Resp.ok none)),
        Effect.flushStream, Effect.arbiterStop], false⟩ := by
  decide

/-- Concrete instance for C3: a successful quit sends ok, flushes, then stops the arbiter. -/
theorem quit_stop_characterization_instance :
    (dispatch envQuitOk (some 0, "m")).effects =
      [Effect.send 0 (Payload.json (Resp.ok none)), Effect.flushStream,
        Effect.arbiterStop] := by
  have hres : (execOf envQuitOk (some 0) "m" ⟨some "quit", [], none⟩).result =
      CmdReturn.noneR := by decide
  have h := (quit_stop_characterization envQuitOk (some 0) "m").2
    ⟨some "quit", [], none⟩ "quit" rfl rfl (by decide)
    (by intro s; rw [hres]; exact fun hh => CmdReturn.noConfusion hh)
  exact h.trans (by decide)

end Circus
